import Mathlib

/-!
Verification development for the whisper-api repository.

Shallow embedding of the asynchronous job-orchestration subsystem:
the metadata store (a Redis hash per job), the native state of the task queue
(Celery), the worker task (celery_worker.transcribe_audio_task), the
gateway endpoints (app.transcribe, app.transcribe_async), the query
endpoints (app.get_job_status, app.get_job_result), the cancellation
handler (app.cancel_job) and the expiry sweeper
(celery_worker.cleanup_old_jobs).

Machine integers are modelled as Nat (sizes and TTLs in the source are
non-negative Python ints that never overflow a machine word in the
scenarios of interest).  Timestamps (datetime strings) are carried as
opaque String parameters.  The floating-point field file_size_mb of the
worker result is outside the embedding and is omitted; no claim
mentions it.
-/

namespace Whisper

/-! ## Metadata store (Redis hashes)

A Metadata Record is one Redis hash: an association list from field
name to string value.  hgetall of an absent key yields the empty dict,
so the empty list doubles as "record absent", exactly as the source
tests it with `if not job_data`. -/

abbrev JobId := String

abbrev MetaRecord := List (String × String)

/-- Redis HGET on a hash: value of the first binding of the field. -/
def hget : MetaRecord → String → Option String
  | [], _ => none
  | (g, w) :: r, f => if g = f then some w else hget r f

/-- Redis HSET of a single field: replace the binding if present,
append it otherwise. -/
def hsetField : MetaRecord → String → String → MetaRecord
  | [], f, v => [(f, v)]
  | (g, w) :: r, f, v => if g = f then (f, v) :: r else (g, w) :: hsetField r f v

/-- The whole metadata store: job id to record, `[]` meaning absent. -/
abbrev Store := JobId → MetaRecord

/-- Point update of the store at one job key. -/
def storeSet (s : Store) (id : JobId) (r : MetaRecord) : Store :=
  fun j => if j = id then r else s j

/-! ## Segments and sidecar JSON

A segment is a JSON object produced by the engine; the source only ever
inspects its "text" entry (seg.get with default) and otherwise carries
the object through unchanged, so the remaining entries are kept as an
opaque association list. -/

structure Segment where
  text : Option String
  rest : List (String × String)
deriving DecidableEq

/-- Python str.strip: drop whitespace from both ends.  Stated over the
character list so that it evaluates inside the kernel; the whitespace
class is the ASCII one that occurs in engine output. -/
def pyStrip (s : String) : String :=
  ⟨((s.data.dropWhile Char.isWhitespace).reverse.dropWhile
      Char.isWhitespace).reverse⟩

/-- Python str.lower, over the character list. -/
def pyLower (s : String) : String := ⟨s.data.map Char.toLower⟩

/-- seg.get with default followed by str.strip, as in both extraction
sites (app.py line 174, celery_worker.py line 128). -/
def segStripText (s : Segment) : String := pyStrip (s.text.getD "")

/-- Truthiness of seg.get of the text entry: present and non-empty. -/
def segTextTruthy (s : Segment) : Bool :=
  match s.text with
  | some t => t ≠ ""
  | none => false

/-- The parsed sidecar JSON, restricted to the three top-level keys the
source reads: "result", "transcription" and "segments". -/
structure SidecarData where
  result : Option (List Segment)
  transcription : Option String
  segments : Option (List Segment)
deriving DecidableEq

/-- Text joined by the worker (celery_worker.py lines 128-129): every
segment text is stripped and joined with single spaces, with no filter
on empty texts. -/
def workerJoin (segs : List Segment) : String :=
  String.intercalate " " (segs.map segStripText)

/-- Text joined by the synchronous path (app.py line 174): segments
with falsy text are filtered out before stripping and joining. -/
def syncJoin (segs : List Segment) : String :=
  String.intercalate " " ((segs.filter segTextTruthy).map segStripText)

/-- Extraction performed by the worker (celery_worker.py lines
121-129): only the "result" key is consulted, and only when truthy
(present and a non-empty list). -/
def workerExtract (data : SidecarData) : String × List Segment :=
  match data.result with
  | some segs => if segs.isEmpty then ("", []) else (workerJoin segs, segs)
  | none => ("", [])

/-- Extraction performed by the synchronous path (app.py lines
166-177): the "result" key when present as a list, else the
"transcription" and "segments" keys, else empty defaults. -/
def syncExtract (data : SidecarData) : String × List Segment :=
  match data.result with
  | some segs => (syncJoin segs, segs)
  | none =>
    match data.transcription with
    | some t => (t, data.segments.getD [])
    | none => ("", [])

/-! ## The worker task (celery_worker.transcribe_audio_task) -/

/-- Outcome of the engine subprocess call under subprocess.run with a
timeout. -/
inductive RunOutcome
  | timeout
  | completed (returncode : Int) (stderr : String) (stdout : String)
deriving DecidableEq

/-- The sidecar file as found on disk after the subprocess: parsed
JSON, or a file json.load rejects with the given message. -/
inductive SidecarFile
  | parsed (data : SidecarData)
  | malformed (err : String)
deriving DecidableEq

/-- The environment one execution of the worker task observes: whether
the input audio file exists, how the subprocess ends, and the sidecar
file it leaves (none when no sidecar is produced). -/
structure WorkerEnv where
  audioExists : Bool
  run : RunOutcome
  sidecar : Option SidecarFile
deriving DecidableEq

/-- The two files of interest on disk. -/
structure FileState where
  audioPresent : Bool
  sidecarPresent : Bool
deriving DecidableEq

/-- The result dict the worker returns on success (celery_worker.py
lines 135-145); the float file_size_mb field and the completed_at
timestamp are outside the embedding. -/
structure ResultData where
  status : String
  job_id : String
  text : String
  segments : List Segment
  model : String
  language : String
  segment_count : Nat
deriving DecidableEq

/-- How the try block of the worker task ends. -/
inductive TryOutcome
  | ok (r : ResultData)
  | timedOut
  | raised (msg : String)
deriving DecidableEq

/-- Python `stderr or stdout`: the first truthy string. -/
def firstTruthy (a b : String) : String := if a ≠ "" then a else b

/-- The try block of transcribe_audio_task (celery_worker.py lines
54-156), with the file-system effects threaded explicitly.  The
sidecar lands on disk once the subprocess has run to completion and is
removed right after a successful json.load; a malformed file is left
in place because the removal follows the load in the source. -/
def workerTryBody (job_id model : String) (language : Option String)
    (audio_path : String) (env : WorkerEnv) : TryOutcome × FileState :=
  if env.audioExists = false then
    (.raised ("Audio file not found: " ++ audio_path), ⟨false, false⟩)
  else
    match env.run with
    | .timeout => (.timedOut, ⟨true, false⟩)
    | .completed rc serr sout =>
      if rc ≠ 0 then
        (.raised ("Transcription failed: " ++ firstTruthy serr sout),
         ⟨true, env.sidecar.isSome⟩)
      else
        match env.sidecar with
        | none => (.raised "No output generated from whisper", ⟨true, false⟩)
        | some (.malformed err) => (.raised err, ⟨true, true⟩)
        | some (.parsed data) =>
          let extracted := workerExtract data
          (.ok ⟨"success", job_id, extracted.1, extracted.2, model,
                language.getD "auto", extracted.2.length⟩,
           ⟨true, false⟩)

/-- Net effect of one worker task execution. -/
structure TaskResult where
  outcome : Except String ResultData
  fs : FileState

/-- transcribe_audio_task (celery_worker.py lines 36-175): the try
block, the two except clauses that wrap everything into a
TranscriptionError, and the finally block that removes the input audio
file when it still exists. -/
def transcribe_audio_task (job_id model : String) (language : Option String)
    (audio_path : String) (env : WorkerEnv) : TaskResult :=
  let body := workerTryBody job_id model language audio_path env
  let outcome : Except String ResultData :=
    match body.1 with
    | .ok r => .ok r
    | .timedOut => .error "Transcription timeout (30 minutes exceeded)"
    | .raised m => .error ("Transcription error: " ++ m)
  let fs := body.2
  { outcome := outcome
    fs := if fs.audioPresent then { fs with audioPresent := false } else fs }

/-! ## Engine command lines -/

def WHISPER_MAIN : String := "/app/whisper.cpp/main"

/-- Command built by the worker (celery_worker.py lines 74-80): the
model argument is the model name exactly as submitted and the audio
path follows it positionally. -/
def workerCmd (model audio_path : String) (language : Option String)
    (threads : Nat) : List String :=
  let cmd := [WHISPER_MAIN, "-m", model, audio_path]
  let cmd := match language with
    | some l => cmd ++ ["-l", l]
    | none => cmd
  cmd ++ ["--output-json", "--threads", toString threads]

/-- Command built by the synchronous path (app.py lines 134-140),
taking the already resolved model file path; the resolution itself is
done by utils.resolve_model_path, which is referenced by app.py but
not part of the sources. -/
def transcribeAudioCmd (model_path audio_path : String)
    (language : Option String) (threads : Nat) : List String :=
  let cmd := [WHISPER_MAIN, "-m", model_path, "-f", audio_path]
  let cmd := match language with
    | some l => cmd ++ ["-l", l]
    | none => cmd
  cmd ++ ["--output-json", "--threads", toString threads]

/-- Modelled from the spec: the engine invocation shape the spec
documents, engine -m model_path -f audio_path, optional -l lang,
--output-json --threads n.  Used only to compare the source command
builders against the spec wording. -/
def engineCmdSpec (model_path audio_path : String)
    (language : Option String) (threads : Nat) : List String :=
  [WHISPER_MAIN, "-m", model_path, "-f", audio_path]
    ++ (match language with
        | some l => ["-l", l]
        | none => [])
    ++ ["--output-json", "--threads", toString threads]

/-- Modelled from the spec: full text as the spec describes it,
concatenating segment texts in engine order with empty texts skipped
entirely rather than contributing extra separators. -/
def specJoinSegments (segs : List Segment) : String :=
  String.intercalate " " ((segs.filter segTextTruthy).map segStripText)

/-! ## Task queue native state (Celery) -/

/-- task.info as the endpoints see it: None, the meta dict written by
update_state (its progress and status entries, each possibly absent),
or an exception instance whose str is the stored message. -/
inductive TaskInfo
  | noInfo
  | dictInfo (progress : Option Nat) (statusMsg : Option String)
  | excInfo (message : String)
deriving DecidableEq

/-- Python truthiness of task.info: None and the empty dict are falsy,
exception instances are truthy. -/
def TaskInfo.truthy : TaskInfo → Bool
  | .noInfo => false
  | .dictInfo p s => p.isSome || s.isSome
  | .excInfo _ => true

/-- Python str of task.info.  The exact rendering of a meta dict never
reaches a contract checked here; the exception case is the stored
message, the None case the literal None text. -/
def TaskInfo.pyStr : TaskInfo → String
  | .noInfo => "None"
  | .dictInfo p s =>
      "\x7bprogress: " ++ toString (p.getD 0) ++ ", status: " ++ s.getD "" ++ "\x7d"
  | .excInfo m => m

/-- One Celery task record: native state string, info, and the stored
result payload (meaningful in state SUCCESS). -/
structure CeleryTask where
  state : String
  info : TaskInfo
  result : Option ResultData
deriving DecidableEq

/-- The task queue: job id to task record, none when the queue holds
nothing under that id. -/
abbrev Queue := JobId → Option CeleryTask

/-- celery_app.AsyncResult: an id the queue knows nothing about
reports native state PENDING with no info and no result — Celery
represents unknown ids exactly like never-started tasks. -/
def AsyncResult (q : Queue) (id : JobId) : CeleryTask :=
  (q id).getD ⟨"PENDING", .noInfo, none⟩

/-! ## Status endpoint (app.get_job_status, app.py lines 579-650) -/

structure StatusResponse where
  job_id : String
  celery_status : String
  submitted_at : String
  model : String
  language : String
  status : String
  progress : Nat
  message : String
  result_url : Option String
deriving DecidableEq

/-- The response dict of get_job_status: the base fields read from the
metadata hash with empty-string defaults, plus the mapped status
triple and the optional result_url. -/
def mkStatusResponse (id : JobId) (task : CeleryTask) (jd : MetaRecord)
    (status : String) (progress : Nat) (message : String)
    (result_url : Option String) : StatusResponse :=
  { job_id := id
    celery_status := task.state
    submitted_at := (hget jd "submitted_at").getD ""
    model := (hget jd "model").getD ""
    language := (hget jd "language").getD ""
    status := status
    progress := progress
    message := message
    result_url := result_url }

/-- get_job_status: 404 when the metadata hash is empty, otherwise the
mapping from the native state of the queue (app.py lines 599-643). -/
def get_job_status (q : Queue) (store : Store) (id : JobId) :
    Nat × Option StatusResponse :=
  if store id = [] then (404, none)
  else if (AsyncResult q id).state = "PENDING" then
    (200, some (mkStatusResponse id (AsyncResult q id) (store id)
      "queued" 0 "Job is queued" none))
  else if (AsyncResult q id).state = "PROCESSING" then
    (200, some (mkStatusResponse id (AsyncResult q id) (store id) "processing"
      (match (AsyncResult q id).info with
       | .dictInfo p _ => p.getD 30
       | _ => 30)
      (match (AsyncResult q id).info with
       | .dictInfo _ s => s.getD "Processing"
       | _ => "Processing")
      none))
  else if (AsyncResult q id).state = "SUCCESS" then
    (200, some (mkStatusResponse id (AsyncResult q id) (store id) "completed"
      100 "Transcription completed" (some ("/api/v1/result/" ++ id))))
  else if (AsyncResult q id).state = "FAILURE" then
    (200, some (mkStatusResponse id (AsyncResult q id) (store id) "failed" 0
      (if (AsyncResult q id).info.truthy then (AsyncResult q id).info.pyStr
       else "Unknown error") none))
  else
    (200, some (mkStatusResponse id (AsyncResult q id) (store id)
      (pyLower (AsyncResult q id).state) 0 (AsyncResult q id).info.pyStr none))

/-! ## Result endpoint (app.get_job_result, app.py lines 653-698) -/

/-- Body of the result endpoint response: the stored payload on
success, or the error envelope carrying the job id and a message. -/
inductive ResultBody
  | payload (r : Option ResultData)
  | errBody (job_id : String) (message : String)
deriving DecidableEq

/-- get_job_result: branches only on the native state of the queue; the
metadata store is never consulted, so there is no 404 arm. -/
def get_job_result (q : Queue) (id : JobId) : Nat × ResultBody :=
  let task := AsyncResult q id
  if task.state = "SUCCESS" then (200, .payload task.result)
  else if task.state = "FAILURE" then (400, .errBody id task.info.pyStr)
  else if task.state = "PENDING" then (202, .errBody id "Job not yet started")
  else (202, .errBody id ("Job still processing (state: " ++ task.state ++ ")"))

/-! ## Cancellation handler (app.cancel_job, app.py lines 701-744) -/

/-- The revoke call issued to the task queue. -/
structure RevokeCall where
  terminate : Bool
  signal : String
deriving DecidableEq

structure CancelResult where
  code : Nat
  message : String
  revoke : Option RevokeCall
  store : Store

/-- cancel_job: 404 with no effect when the metadata hash is empty,
otherwise a forceful revoke plus an HSET of exactly the status field
to cancelled. -/
def cancel_job (store : Store) (id : JobId) : CancelResult :=
  if store id = [] then ⟨404, "Job not found", none, store⟩
  else ⟨200, "Job cancelled successfully", some ⟨true, "SIGKILL"⟩,
        storeSet store id (hsetField (store id) "status" "cancelled")⟩

/-! ## Expiry sweeper (celery_worker.cleanup_old_jobs, lines 178-212) -/

/-- One Redis key as the sweeper sees it: the key string, the hash,
and the TTL, none standing for the Redis TTL answer -1 (no expiry
set).  Keys enumerated by KEYS exist, so the -2 answer does not
arise. -/
structure RedisKey where
  key : String
  record : MetaRecord
  ttl : Option Nat
deriving DecidableEq

/-- Prefix test for the KEYS job pattern, stated over the character
list so that it evaluates inside the kernel. -/
def strStartsWith (s p : String) : Bool := p.data.isPrefixOf s.data

/-- Per-key action of the sweeper: EXPIRE 86400 when the key matches
the job prefix and has no TTL, otherwise untouched. -/
def sweepKey (e : RedisKey) : RedisKey :=
  if strStartsWith e.key "job:" && e.ttl.isNone then { e with ttl := some 86400 }
  else e

/-- cleanup_old_jobs: one pass over the database applying the per-key
action; keys outside the job prefix are not enumerated by KEYS and are
left as they are. -/
def cleanup_old_jobs (db : List RedisKey) : List RedisKey :=
  db.map sweepKey

/-! ## Gateway submission (app.transcribe and app.transcribe_async) -/

def MAX_CONTENT_LENGTH : Nat := 500 * 1024 * 1024

/-- What a client submits: an uploaded file with its name and byte
size, or a URL download with the name the download resolves to, the
declared content-length header when present, and the actual streamed
byte size. -/
inductive SubmitSource
  | upload (filename : String) (size : Nat)
  | fromUrl (filename : String) (contentLength : Option Nat) (bodySize : Nat)
deriving DecidableEq

/-- Size of the HTTP request body carrying the submission: a multipart
upload is at least as large as the file it carries, a URL submission
is a small JSON document, modelled as zero. -/
def requestBodySize : SubmitSource → Nat
  | .upload _ size => size
  | .fromUrl _ _ _ => 0

/-- utils.download_file_from_url size enforcement (utils.py lines
48-64): reject on a declared content-length above the cap, then reject
when the running byte counter exceeds the cap, deleting the partial
file; on rejection nothing is kept. -/
def download_file_from_url (contentLength : Option Nat) (bodySize : Nat)
    (max_size_bytes : Nat) : Except String Unit :=
  let tooLarge := "File too large. Maximum size: "
      ++ toString (max_size_bytes / (1024 * 1024)) ++ "MB"
  match contentLength with
  | some d =>
    if d > max_size_bytes then .error tooLarge
    else if bodySize > max_size_bytes then .error tooLarge
    else .ok ()
  | none =>
    if bodySize > max_size_bytes then .error tooLarge
    else .ok ()

/-- A task handed to transcribe_audio_task.delay. -/
structure EnqueuedTask where
  model : String
  language : Option String
deriving DecidableEq

/-- The job-visible state the gateway can create: the metadata store
and the list of enqueued tasks. -/
structure GatewayState where
  store : Store
  tasks : List EnqueuedTask

structure SubmitResult where
  code : Nat
  message : String
  job_id : Option JobId
  state : GatewayState

/-- Successful submission tail of transcribe_async (app.py lines
529-562): enqueue the task, write the metadata hash with its initial
fields, answer 202. -/
def submitJob (st : GatewayState) (newId : JobId) (fname model : String)
    (language : Option String) (submitted_at : String) : SubmitResult :=
  ⟨202, "Job submitted for processing", some newId,
   { store := storeSet st.store newId
       [("status", "submitted"), ("model", model),
        ("language", language.getD "auto"), ("filename", fname),
        ("submitted_at", submitted_at)]
     tasks := st.tasks ++ [⟨model, language⟩] }⟩

/-- The transcribe_async view function body (app.py lines 445-576):
an empty filename is a 400, a URL download failing size enforcement is
a 400 with no state, and otherwise the job is created.  The view
itself holds no size check for uploads. -/
def transcribe_async_handler (st : GatewayState) (newId : JobId)
    (src : SubmitSource) (model : String) (language : Option String)
    (submitted_at : String) : SubmitResult :=
  match src with
  | .upload fname _size =>
    if fname = "" then ⟨400, "Empty filename", none, st⟩
    else submitJob st newId fname model language submitted_at
  | .fromUrl fname cl bodySize =>
    match download_file_from_url cl bodySize MAX_CONTENT_LENGTH with
    | .error msg => ⟨400, msg, none, st⟩
    | .ok _ => submitJob st newId fname model language submitted_at

/-- transcribe_async as served: config.py line 22 sets
MAX_CONTENT_LENGTH, which Flask enforces on the request body, sending
413 Request Entity Too Large before the view function runs, so an
oversize multipart upload never reaches the handler. -/
def transcribe_async_served (st : GatewayState) (newId : JobId)
    (src : SubmitSource) (model : String) (language : Option String)
    (submitted_at : String) : SubmitResult :=
  if requestBodySize src > MAX_CONTENT_LENGTH then
    ⟨413, "Request Entity Too Large", none, st⟩
  else transcribe_async_handler st newId src model language submitted_at

/-- Outcome of the validation portion of the synchronous transcribe
view (app.py lines 249-317): either an immediate rejection or
proceeding to the engine.  The synchronous view never touches the
metadata store or the task queue. -/
inductive SyncValidation
  | rejected (code : Nat) (message : String)
  | proceeds
deriving DecidableEq

/-- The synchronous transcribe view validation: empty filename 400,
explicit oversize check 413, empty file 400, URL size enforcement
mapped to 400. -/
def transcribe_validate (src : SubmitSource) : SyncValidation :=
  match src with
  | .upload fname size =>
    if fname = "" then .rejected 400 "Empty filename"
    else if size > MAX_CONTENT_LENGTH then
      .rejected 413 ("File too large. Maximum size: "
        ++ toString (MAX_CONTENT_LENGTH / (1024 * 1024)) ++ "MB")
    else if size = 0 then .rejected 400 "Empty file"
    else .proceeds
  | .fromUrl _ cl bodySize =>
    match download_file_from_url cl bodySize MAX_CONTENT_LENGTH with
    | .error msg => .rejected 400 msg
    | .ok _ => .proceeds

/-! ## Helper lemmas -/

theorem hget_hsetField_self (r : MetaRecord) (f v : String) :
    hget (hsetField r f v) f = some v := by
  induction r with
  | nil => simp [hsetField, hget]
  | cons p r ih =>
    obtain ⟨g, w⟩ := p
    by_cases h : g = f
    · simp [hsetField, hget, h]
    · simp [hsetField, hget, h, ih]

theorem hget_hsetField_ne (r : MetaRecord) (f v g : String) (h : g ≠ f) :
    hget (hsetField r f v) g = hget r g := by
  have hfg : f ≠ g := Ne.symm h
  induction r with
  | nil => simp [hsetField, hget, hfg]
  | cons p r ih =>
    obtain ⟨a, w⟩ := p
    by_cases ha : a = f
    · subst ha
      simp [hsetField, hget, hfg]
    · simp [hsetField, hget, ha, ih]

theorem hsetField_ne_nil (r : MetaRecord) (f v : String) :
    hsetField r f v ≠ [] := by
  cases r with
  | nil => simp [hsetField]
  | cons p r =>
    obtain ⟨a, w⟩ := p
    by_cases ha : a = f <;> simp [hsetField, ha]

theorem storeSet_self (s : Store) (id : JobId) (r : MetaRecord) :
    storeSet s id r id = r := by
  simp [storeSet]

theorem storeSet_other (s : Store) (id j : JobId) (r : MetaRecord)
    (h : j ≠ id) : storeSet s id r j = s j := by
  simp [storeSet, h]

/-! ## C7 — worker input-file cleanup -/

/-- C7: For every task executed by the Worker — for every combination
of input-file existence, subprocess outcome (success, nonzero exit,
timeout) and sidecar content (absent, malformed, parsed) — the
temporary input audio file is absent once the task has finished: the
finally block removes it on every exit path. -/
theorem c7_audio_file_always_removed (job_id model audio_path : String)
    (language : Option String) (env : WorkerEnv) :
    (transcribe_audio_task job_id model language audio_path env).fs.audioPresent
      = false := by
  unfold transcribe_audio_task
  cases h : (workerTryBody job_id model language audio_path env).2.audioPresent <;>
    simp [h]

/-! ## C9 — expiry sweeper -/

/-- C9: After one run of the sweeper every job key carries a TTL (a
Nat, hence finite and non-negative); a key that already had a TTL is
left exactly as it was; and the sweep is idempotent. -/
theorem c9_sweeper_invariant (db : List RedisKey) :
    (∀ e ∈ cleanup_old_jobs db,
        strStartsWith e.key "job:" = true → e.ttl.isSome = true)
    ∧ (∀ e : RedisKey, e.ttl.isSome = true → sweepKey e = e)
    ∧ cleanup_old_jobs (cleanup_old_jobs db) = cleanup_old_jobs db := by
  have hpres : ∀ e : RedisKey, e.ttl.isSome = true → sweepKey e = e := by
    intro e h
    have hn : e.ttl.isNone = false := by
      cases hc : e.ttl <;> simp [hc] at h ⊢
    simp [sweepKey, hn]
  refine ⟨?_, hpres, ?_⟩
  · intro e he hpre
    rcases List.mem_map.mp he with ⟨a, _, rfl⟩
    cases hc : a.ttl with
    | some t =>
      have ha : sweepKey a = a := hpres a (by simp [hc])
      rw [ha]
      simp [hc]
    | none =>
      by_cases hk : strStartsWith a.key "job:" = true
      · simp [sweepKey, hk, hc]
      · have ha : sweepKey a = a := by
          simp [sweepKey, Bool.not_eq_true _ |>.mp hk]
        rw [ha] at hpre
        exact absurd hpre hk
  · unfold cleanup_old_jobs
    rw [List.map_map]
    apply List.map_congr_left
    intro a _
    show sweepKey (sweepKey a) = sweepKey a
    by_cases h : (strStartsWith a.key "job:" && a.ttl.isNone) = true
    · have h1 : sweepKey a = { a with ttl := some 86400 } := by
        unfold sweepKey; rw [if_pos h]
      rw [h1]
      unfold sweepKey
      simp
    · have h1 : sweepKey a = a := by
        unfold sweepKey; rw [if_neg h]
      rw [h1, h1]

/-- Concrete sweeper database used to witness C9: one job key without
TTL, one with a TTL, one non-job key. -/
def sweeperDbW : List RedisKey :=
  [⟨"job:abc", [("status", "submitted")], none⟩,
   ⟨"job:def", [("status", "completed")], some 500⟩,
   ⟨"other", [], none⟩]

/-- Witness for C9 at a concrete database: the TTL-less job key comes
out with a TTL, the key with a TTL is untouched by the per-key action,
and re-running changes nothing. -/
theorem c9_sweeper_invariant_witness :
    (⟨"job:abc", [("status", "submitted")], some 86400⟩ : RedisKey).ttl.isSome
        = true
    ∧ sweepKey ⟨"job:def", [("status", "completed")], some 500⟩
        = ⟨"job:def", [("status", "completed")], some 500⟩
    ∧ cleanup_old_jobs (cleanup_old_jobs sweeperDbW)
        = cleanup_old_jobs sweeperDbW := by
  refine ⟨?_, ?_, (c9_sweeper_invariant sweeperDbW).2.2⟩
  · exact (c9_sweeper_invariant sweeperDbW).1
      ⟨"job:abc", [("status", "submitted")], some 86400⟩
      (by decide) (by decide)
  · exact (c9_sweeper_invariant sweeperDbW).2.1 _ (by decide)

/-! ## C8 — cancellation -/

/-- C8: cancel of an unknown job id is a 404 with no effect; cancel of
a known job answers 200, issues a forceful revoke (terminate with
SIGKILL), sets the metadata status field to cancelled, leaves every
other field of the record unchanged, and leaves every other job
untouched. -/
theorem c8_cancel_behaviour (store : Store) (id : JobId) :
    (store id = [] → cancel_job store id = ⟨404, "Job not found", none, store⟩)
    ∧ (store id ≠ [] →
        (cancel_job store id).code = 200
        ∧ (cancel_job store id).revoke = some ⟨true, "SIGKILL"⟩
        ∧ hget ((cancel_job store id).store id) "status" = some "cancelled"
        ∧ (∀ f, f ≠ "status" →
            hget ((cancel_job store id).store id) f = hget (store id) f)
        ∧ (∀ j, j ≠ id → (cancel_job store id).store j = store j)) := by
  constructor
  · intro h
    simp [cancel_job, h]
  · intro h
    refine ⟨by simp [cancel_job, h], by simp [cancel_job, h], ?_, ?_, ?_⟩
    · simp [cancel_job, h, storeSet_self, hget_hsetField_self]
    · intro f hf
      simp [cancel_job, h, storeSet_self, hget_hsetField_ne _ _ _ _ hf]
    · intro j hj
      simp [cancel_job, h, storeSet_other _ _ _ _ hj]

/-- Concrete store used to witness C8: one Completed job whose record
already holds a result payload. -/
def cancelStoreW : Store := fun j =>
  if j = "done" then
    [("status", "completed"), ("result", "stored-payload"), ("model", "base.en")]
  else []

/-- Witness for C8: cancelling the unknown id answers 404; cancelling
the Completed job answers 200 with a SIGKILL revoke, marks the status
cancelled, and the already-stored result field is exactly what it
was. -/
theorem c8_cancel_behaviour_witness :
    (cancel_job cancelStoreW "missing").code = 404
    ∧ (cancel_job cancelStoreW "done").code = 200
    ∧ (cancel_job cancelStoreW "done").revoke = some ⟨true, "SIGKILL"⟩
    ∧ hget ((cancel_job cancelStoreW "done").store "done") "status"
        = some "cancelled"
    ∧ hget ((cancel_job cancelStoreW "done").store "done") "result"
        = some "stored-payload" := by
  have h404 := (c8_cancel_behaviour cancelStoreW "missing").1 (by decide)
  have h := (c8_cancel_behaviour cancelStoreW "done").2 (by decide)
  refine ⟨by rw [h404], h.1, h.2.1, h.2.2.1, ?_⟩
  have := h.2.2.2.1 "result" (by decide)
  rw [this]
  decide

/-! ## C6 — engine command line -/

/-- Counterexample to C6: the worker builds its command without any -f
flag, passing the audio path positionally, and the -m argument is the
model name exactly as submitted (base.en), not a resolved model file
path; the resulting argument list differs from the one the claim
states. -/
theorem c6_counterexample :
    workerCmd "base.en" "/app/uploads/a.wav" none 4
        ≠ engineCmdSpec "base.en" "/app/uploads/a.wav" none 4
    ∧ "-f" ∉ workerCmd "base.en" "/app/uploads/a.wav" none 4
    ∧ workerCmd "base.en" "/app/uploads/a.wav" none 4
        = [WHISPER_MAIN, "-m", "base.en", "/app/uploads/a.wav",
           "--output-json", "--threads", "4"] := by
  decide

/-- C6 amended: the worker invokes the engine as
engine -m model audio_path, optional -l lang, --output-json --threads n,
with the audio path positional and the model name unresolved; the
synchronous path transcribe_audio is the one that matches the claimed
shape engine -m model_path -f audio_path. -/
theorem c6_amended_command_shapes (model_path model audio l : String)
    (threads : Nat) :
    workerCmd model audio (some l) threads
        = [WHISPER_MAIN, "-m", model, audio, "-l", l,
           "--output-json", "--threads", toString threads]
    ∧ workerCmd model audio none threads
        = [WHISPER_MAIN, "-m", model, audio,
           "--output-json", "--threads", toString threads]
    ∧ transcribeAudioCmd model_path audio (some l) threads
        = engineCmdSpec model_path audio (some l) threads
    ∧ transcribeAudioCmd model_path audio none threads
        = engineCmdSpec model_path audio none threads := by
  refine ⟨?_, ?_, ?_, ?_⟩ <;> simp [workerCmd, transcribeAudioCmd, engineCmdSpec]

/-! ## C1 — result endpoint -/

def emptyQueue : Queue := fun _ => none

/-- Counterexample to C1: for an unknown job id get_job_result does
not answer 404 — the endpoint never consults the metadata store, the
queue reports native state PENDING for the unknown id, and the
response is the 202 not-ready envelope. -/
theorem c1_counterexample :
    (get_job_result emptyQueue "missing").1 = 202
    ∧ (get_job_result emptyQueue "missing").1 ≠ 404
    ∧ get_job_result emptyQueue "missing"
        = (202, .errBody "missing" "Job not yet started") := by
  refine ⟨rfl, by decide, rfl⟩

/-- C1 amended: get_job_result branches only on the native
state — Success answers 200 with the stored payload, Failure 400 with
the stored message, Pending 202 not-ready, any other state 202 still
processing; an unknown job id reports native state Pending and
therefore also receives the 202 not-ready response, not a 404. -/
theorem c1_amended_result_mapping (q : Queue) (id : JobId) :
    (q id = none →
        get_job_result q id = (202, .errBody id "Job not yet started"))
    ∧ (∀ t : CeleryTask, q id = some t → t.state = "SUCCESS" →
        get_job_result q id = (200, .payload t.result))
    ∧ (∀ t : CeleryTask, q id = some t → t.state = "FAILURE" →
        get_job_result q id = (400, .errBody id t.info.pyStr))
    ∧ (∀ t : CeleryTask, q id = some t → t.state = "PENDING" →
        get_job_result q id = (202, .errBody id "Job not yet started"))
    ∧ (∀ t : CeleryTask, q id = some t → t.state ≠ "SUCCESS" →
        t.state ≠ "FAILURE" → t.state ≠ "PENDING" →
        get_job_result q id = (202, .errBody id
          ("Job still processing (state: " ++ t.state ++ ")"))) := by
  refine ⟨?_, ?_, ?_, ?_, ?_⟩
  · intro h
    simp [get_job_result, AsyncResult, h]
  · intro t hq hs
    simp [get_job_result, AsyncResult, hq, hs]
  · intro t hq hs
    simp [get_job_result, AsyncResult, hq, hs]
  · intro t hq hs
    simp [get_job_result, AsyncResult, hq, hs]
  · intro t hq h1 h2 h3
    simp [get_job_result, AsyncResult, hq, h1, h2, h3]

def resultDataW : ResultData :=
  ⟨"success", "jid1", "Hello world", [⟨some "Hello world", []⟩],
   "base.en", "auto", 1⟩

def qSuccessW : Queue := fun i =>
  if i = "jid1" then some ⟨"SUCCESS", .noInfo, some resultDataW⟩ else none

def qFailureW : Queue := fun i =>
  if i = "jid2" then
    some ⟨"FAILURE", .excInfo "Transcription error: boom", none⟩
  else none

def qPendingW : Queue := fun i =>
  if i = "jid3" then some ⟨"PENDING", .noInfo, none⟩ else none

def qRevokedW : Queue := fun i =>
  if i = "jid4" then some ⟨"REVOKED", .noInfo, none⟩ else none

/-- Witness for the amended C1 at concrete queues, one per arm. -/
theorem c1_amended_result_mapping_witness :
    get_job_result emptyQueue "unknown"
        = (202, .errBody "unknown" "Job not yet started")
    ∧ get_job_result qSuccessW "jid1" = (200, .payload (some resultDataW))
    ∧ get_job_result qFailureW "jid2"
        = (400, .errBody "jid2" "Transcription error: boom")
    ∧ get_job_result qPendingW "jid3"
        = (202, .errBody "jid3" "Job not yet started")
    ∧ get_job_result qRevokedW "jid4"
        = (202, .errBody "jid4" "Job still processing (state: REVOKED)") := by
  refine ⟨(c1_amended_result_mapping emptyQueue "unknown").1 rfl,
    (c1_amended_result_mapping qSuccessW "jid1").2.1 _ rfl rfl,
    (c1_amended_result_mapping qFailureW "jid2").2.2.1 _ rfl rfl,
    (c1_amended_result_mapping qPendingW "jid3").2.2.2.1 _ rfl rfl,
    (c1_amended_result_mapping qRevokedW "jid4").2.2.2.2 _ rfl
      (by decide) (by decide) (by decide)⟩

/-! ## C3 — status mapping -/

/-- C3: get_job_status answers 404 exactly when the metadata record is
absent, and otherwise maps the native state of the queue totally: Pending
to queued at 0, Processing to processing with the progress and message
of the last update_state meta dict (30 and Processing when absent),
Success to completed at 100 with a result_url, Failure to failed at 0
carrying the stored error message, and any other native state to its
lowercase form at 0. -/
theorem c3_status_mapping (q : Queue) (store : Store) (id : JobId) :
    (store id = [] → get_job_status q store id = (404, none))
    ∧ (store id ≠ [] → (AsyncResult q id).state = "PENDING" →
        ∃ r, get_job_status q store id = (200, some r)
          ∧ r.status = "queued" ∧ r.progress = 0 ∧ r.message = "Job is queued")
    ∧ (store id ≠ [] → (AsyncResult q id).state = "PROCESSING" →
        ∀ p s, (AsyncResult q id).info = .dictInfo p s →
        ∃ r, get_job_status q store id = (200, some r)
          ∧ r.status = "processing" ∧ r.progress = p.getD 30
          ∧ r.message = s.getD "Processing")
    ∧ (store id ≠ [] → (AsyncResult q id).state = "PROCESSING" →
        (∀ p s, (AsyncResult q id).info ≠ .dictInfo p s) →
        ∃ r, get_job_status q store id = (200, some r)
          ∧ r.status = "processing" ∧ r.progress = 30
          ∧ r.message = "Processing")
    ∧ (store id ≠ [] → (AsyncResult q id).state = "SUCCESS" →
        ∃ r, get_job_status q store id = (200, some r)
          ∧ r.status = "completed" ∧ r.progress = 100
          ∧ r.message = "Transcription completed"
          ∧ r.result_url = some ("/api/v1/result/" ++ id))
    ∧ (store id ≠ [] → (AsyncResult q id).state = "FAILURE" →
        ∀ m, (AsyncResult q id).info = .excInfo m →
        ∃ r, get_job_status q store id = (200, some r)
          ∧ r.status = "failed" ∧ r.progress = 0 ∧ r.message = m)
    ∧ (store id ≠ [] →
        (AsyncResult q id).state ≠ "PENDING" →
        (AsyncResult q id).state ≠ "PROCESSING" →
        (AsyncResult q id).state ≠ "SUCCESS" →
        (AsyncResult q id).state ≠ "FAILURE" →
        ∃ r, get_job_status q store id = (200, some r)
          ∧ r.status = pyLower (AsyncResult q id).state ∧ r.progress = 0) := by
  refine ⟨?_, ?_, ?_, ?_, ?_, ?_, ?_⟩
  · intro h
    simp [get_job_status, h]
  · intro hm hs
    refine ⟨mkStatusResponse id (AsyncResult q id) (store id) "queued" 0
      "Job is queued" none, ?_, rfl, rfl, rfl⟩
    simp [get_job_status, hm, hs]
  · intro hm hs p s hi
    refine ⟨mkStatusResponse id (AsyncResult q id) (store id) "processing"
      (p.getD 30) (s.getD "Processing") none, ?_, rfl, rfl, rfl⟩
    simp [get_job_status, hm, hs, hi]
  · intro hm hs hnd
    cases hinfo : (AsyncResult q id).info with
    | dictInfo p s => exact absurd hinfo (hnd p s)
    | noInfo =>
      refine ⟨mkStatusResponse id (AsyncResult q id) (store id) "processing"
        30 "Processing" none, ?_, rfl, rfl, rfl⟩
      simp [get_job_status, hm, hs, hinfo]
    | excInfo m =>
      refine ⟨mkStatusResponse id (AsyncResult q id) (store id) "processing"
        30 "Processing" none, ?_, rfl, rfl, rfl⟩
      simp [get_job_status, hm, hs, hinfo]
  · intro hm hs
    refine ⟨mkStatusResponse id (AsyncResult q id) (store id) "completed" 100
      "Transcription completed" (some ("/api/v1/result/" ++ id)),
      ?_, rfl, rfl, rfl, rfl⟩
    simp [get_job_status, hm, hs]
  · intro hm hs m hi
    refine ⟨mkStatusResponse id (AsyncResult q id) (store id) "failed" 0 m none,
      ?_, rfl, rfl, rfl⟩
    simp [get_job_status, hm, hs, hi, TaskInfo.truthy, TaskInfo.pyStr]
  · intro hm h1 h2 h3 h4
    refine ⟨mkStatusResponse id (AsyncResult q id) (store id)
      (pyLower (AsyncResult q id).state) 0 ((AsyncResult q id).info.pyStr) none,
      ?_, rfl, rfl⟩
    simp [get_job_status, hm, h1, h2, h3, h4]

def statusStoreW : Store := fun j =>
  if j = "job1" then
    [("status", "submitted"), ("model", "base.en"), ("language", "auto"),
     ("filename", "a.wav"), ("submitted_at", "t0")]
  else []

def mkQueueW (t : CeleryTask) : Queue := fun i =>
  if i = "job1" then some t else none

/-- Witness for C3 at one concrete store and one concrete queue per
native state. -/
theorem c3_status_mapping_witness :
    get_job_status emptyQueue statusStoreW "nope" = (404, none)
    ∧ ((get_job_status (mkQueueW ⟨"PENDING", .noInfo, none⟩) statusStoreW
        "job1").2.map StatusResponse.status = some "queued")
    ∧ ((get_job_status (mkQueueW ⟨"PROCESSING",
          .dictInfo (some 55) (some "Transcribing"), none⟩) statusStoreW
        "job1").2.map StatusResponse.progress = some 55)
    ∧ ((get_job_status (mkQueueW ⟨"PROCESSING", .excInfo "x", none⟩)
        statusStoreW "job1").2.map StatusResponse.progress = some 30)
    ∧ ((get_job_status (mkQueueW ⟨"SUCCESS", .noInfo, none⟩) statusStoreW
        "job1").2.map StatusResponse.result_url
          = some (some "/api/v1/result/job1"))
    ∧ ((get_job_status (mkQueueW ⟨"FAILURE", .excInfo "boom", none⟩)
        statusStoreW "job1").2.map StatusResponse.message = some "boom")
    ∧ ((get_job_status (mkQueueW ⟨"REVOKED", .noInfo, none⟩) statusStoreW
        "job1").2.map StatusResponse.status = some (pyLower "REVOKED")) := by
  refine ⟨(c3_status_mapping emptyQueue statusStoreW "nope").1 (by decide),
    ?_, ?_, ?_, ?_, ?_, ?_⟩
  · obtain ⟨r, hr, hs, _, _⟩ :=
      (c3_status_mapping (mkQueueW ⟨"PENDING", .noInfo, none⟩) statusStoreW
        "job1").2.1 (by decide) rfl
    rw [hr]; simp [hs]
  · obtain ⟨r, hr, _, hp, _⟩ :=
      (c3_status_mapping (mkQueueW ⟨"PROCESSING",
        .dictInfo (some 55) (some "Transcribing"), none⟩) statusStoreW
        "job1").2.2.1 (by decide) rfl (some 55) (some "Transcribing") rfl
    rw [hr]; simp [hp]
  · obtain ⟨r, hr, _, hp, _⟩ :=
      (c3_status_mapping (mkQueueW ⟨"PROCESSING", .excInfo "x", none⟩)
        statusStoreW "job1").2.2.2.1 (by decide) rfl
        (fun p s h => nomatch h)
    rw [hr]; simp [hp]
  · obtain ⟨r, hr, _, _, _, hu⟩ :=
      (c3_status_mapping (mkQueueW ⟨"SUCCESS", .noInfo, none⟩) statusStoreW
        "job1").2.2.2.2.1 (by decide) rfl
    rw [hr]; simp [hu]
  · obtain ⟨r, hr, _, _, hm⟩ :=
      (c3_status_mapping (mkQueueW ⟨"FAILURE", .excInfo "boom", none⟩)
        statusStoreW "job1").2.2.2.2.2.1 (by decide) rfl "boom" rfl
    rw [hr]; simp [hm]
  · obtain ⟨r, hr, hs, _⟩ :=
      (c3_status_mapping (mkQueueW ⟨"REVOKED", .noInfo, none⟩) statusStoreW
        "job1").2.2.2.2.2.2 (by decide) (by decide) (by decide) (by decide)
        (by decide)
    rw [hr]
    show some r.status = some (pyLower "REVOKED")
    rw [hs]
    rfl

/-! ## C10 — unified status is independent of the metadata status field -/

theorem mkStatusResponse_congr (id : JobId) (task : CeleryTask)
    (jd1 jd2 : MetaRecord) (st : String) (p : Nat) (m : String)
    (u : Option String)
    (h : ∀ f, f ≠ "status" → hget jd1 f = hget jd2 f) :
    mkStatusResponse id task jd1 st p m u
      = mkStatusResponse id task jd2 st p m u := by
  unfold mkStatusResponse
  rw [h "submitted_at" (by decide), h "model" (by decide),
    h "language" (by decide)]

theorem get_job_status_congr (q : Queue) (s1 s2 : Store) (id : JobId)
    (h1 : s1 id ≠ []) (h2 : s2 id ≠ [])
    (hagree : ∀ f, f ≠ "status" → hget (s1 id) f = hget (s2 id) f) :
    get_job_status q s1 id = get_job_status q s2 id := by
  unfold get_job_status
  rw [if_neg h1, if_neg h2]
  have hc := fun st p m u =>
    mkStatusResponse_congr id (AsyncResult q id) (s1 id) (s2 id) st p m u hagree
  split_ifs <;> simp [hc]

/-- C10: get_job_status reads only the native state of the queue and the
non-status metadata fields, so two stores whose records for a job
agree everywhere except the status field receive identical responses;
in particular the cancelled mark written by cancel_job never changes
what the status endpoint returns. -/
theorem c10_status_ignores_metadata_status (q : Queue) (s1 s2 : Store)
    (id : JobId) (h1 : s1 id ≠ []) (h2 : s2 id ≠ [])
    (hagree : ∀ f, f ≠ "status" → hget (s1 id) f = hget (s2 id) f) :
    get_job_status q s1 id = get_job_status q s2 id
    ∧ get_job_status q ((cancel_job s1 id).store) id = get_job_status q s1 id := by
  have hstore : (cancel_job s1 id).store id
      = hsetField (s1 id) "status" "cancelled" := by
    unfold cancel_job
    rw [if_neg h1]
    exact storeSet_self _ _ _
  constructor
  · exact get_job_status_congr q s1 s2 id h1 h2 hagree
  · refine get_job_status_congr q _ s1 id ?_ h1 ?_
    · rw [hstore]
      exact hsetField_ne_nil _ _ _
    · intro f hf
      rw [hstore]
      exact hget_hsetField_ne _ _ _ _ hf

def statusStoreB : Store := fun j =>
  if j = "job1" then
    [("status", "cancelled"), ("model", "base.en"), ("language", "auto"),
     ("filename", "a.wav"), ("submitted_at", "t0")]
  else []

/-- Witness for C10: a record marked submitted and the same record
marked cancelled receive the same status response, and cancelling the
job does not change the status response either. -/
theorem c10_status_ignores_metadata_status_witness :
    get_job_status (mkQueueW ⟨"PROCESSING", .dictInfo (some 55) none, none⟩)
        statusStoreW "job1"
      = get_job_status (mkQueueW ⟨"PROCESSING", .dictInfo (some 55) none, none⟩)
        statusStoreB "job1"
    ∧ get_job_status (mkQueueW ⟨"PROCESSING", .dictInfo (some 55) none, none⟩)
        ((cancel_job statusStoreW "job1").store) "job1"
      = get_job_status (mkQueueW ⟨"PROCESSING", .dictInfo (some 55) none, none⟩)
        statusStoreW "job1" := by
  have hagree : ∀ f, f ≠ "status" →
      hget (statusStoreW "job1") f = hget (statusStoreB "job1") f := by
    intro f hf
    have hne : ¬("status" = f) := fun hh => hf hh.symm
    show hget [("status", "submitted"), ("model", "base.en"),
        ("language", "auto"), ("filename", "a.wav"), ("submitted_at", "t0")] f
      = hget [("status", "cancelled"), ("model", "base.en"),
        ("language", "auto"), ("filename", "a.wav"), ("submitted_at", "t0")] f
    simp [hget, hne]
  exact c10_status_ignores_metadata_status
    (mkQueueW ⟨"PROCESSING", .dictInfo (some 55) none, none⟩)
    statusStoreW statusStoreB "job1" (by decide) (by decide) hagree

/-! ## C2 — oversize submissions -/

def emptyGatewayW : GatewayState := ⟨fun _ => [], []⟩

/-- Counterexample to C2: an oversize URL submission is rejected with
status 400, not 413 — the size enforcement in the download utility
raises a ValueError that the view maps to 400 — though indeed no
metadata record is written and no task is enqueued. -/
theorem c2_counterexample :
    (transcribe_async_served emptyGatewayW "j1"
        (.fromUrl "a.mp3" none (MAX_CONTENT_LENGTH + 1)) "base.en" none
        "t0").code = 400
    ∧ (transcribe_async_served emptyGatewayW "j1"
        (.fromUrl "a.mp3" none (MAX_CONTENT_LENGTH + 1)) "base.en" none
        "t0").code ≠ 413
    ∧ (transcribe_async_served emptyGatewayW "j1"
        (.fromUrl "a.mp3" none (MAX_CONTENT_LENGTH + 1)) "base.en" none
        "t0").job_id = none
    ∧ (transcribe_async_served emptyGatewayW "j1"
        (.fromUrl "a.mp3" none (MAX_CONTENT_LENGTH + 1)) "base.en" none
        "t0").state.tasks = [] := by
  refine ⟨rfl, by decide, rfl, rfl⟩

/-- C2 amended: an oversize upload is rejected with 413 (the request
body guard configured by MAX_CONTENT_LENGTH) and an oversize URL
download with 400 (ValueError from the download utility); in both
cases no metadata record is written, no task is enqueued, and no job
id is issued.  The synchronous endpoint rejects the same inputs with
413 and 400 respectively and never creates job state at all. -/
theorem c2_amended_oversize_rejection (st : GatewayState) (newId : JobId)
    (fname model submitted_at : String) (language : Option String)
    (size : Nat) (hsize : size > MAX_CONTENT_LENGTH)
    (cl : Option Nat) (bodySize : Nat) (hbody : bodySize > MAX_CONTENT_LENGTH)
    (hfname : fname ≠ "") :
    (transcribe_async_served st newId (.upload fname size) model language
        submitted_at).code = 413
    ∧ (transcribe_async_served st newId (.upload fname size) model language
        submitted_at).job_id = none
    ∧ (transcribe_async_served st newId (.upload fname size) model language
        submitted_at).state = st
    ∧ (transcribe_async_served st newId (.fromUrl fname cl bodySize) model
        language submitted_at).code = 400
    ∧ (transcribe_async_served st newId (.fromUrl fname cl bodySize) model
        language submitted_at).job_id = none
    ∧ (transcribe_async_served st newId (.fromUrl fname cl bodySize) model
        language submitted_at).state = st
    ∧ transcribe_validate (.upload fname size)
        = .rejected 413 "File too large. Maximum size: 500MB"
    ∧ transcribe_validate (.fromUrl fname cl bodySize)
        = .rejected 400 "File too large. Maximum size: 500MB" := by
  have hmsg : ("File too large. Maximum size: "
      ++ toString (MAX_CONTENT_LENGTH / (1024 * 1024)) ++ "MB")
      = "File too large. Maximum size: 500MB" := by decide
  have h0 : ¬((0 : Nat) > MAX_CONTENT_LENGTH) := by decide
  have hup : transcribe_async_served st newId (.upload fname size) model
      language submitted_at = ⟨413, "Request Entity Too Large", none, st⟩ := by
    simp [transcribe_async_served, requestBodySize, hsize]
  have hurl : transcribe_async_served st newId (.fromUrl fname cl bodySize)
      model language submitted_at
      = ⟨400, "File too large. Maximum size: 500MB", none, st⟩ := by
    cases cl with
    | none =>
      simp [transcribe_async_served, transcribe_async_handler,
        download_file_from_url, requestBodySize, hbody, hmsg, h0]
    | some d =>
      by_cases hd : d > MAX_CONTENT_LENGTH
      · simp [transcribe_async_served, transcribe_async_handler,
          download_file_from_url, requestBodySize, hbody, hmsg, h0, hd]
      · simp [transcribe_async_served, transcribe_async_handler,
          download_file_from_url, requestBodySize, hbody, hmsg, h0, hd]
  have hsync1 : transcribe_validate (.upload fname size)
      = .rejected 413 "File too large. Maximum size: 500MB" := by
    simp [transcribe_validate, hfname, hsize, hmsg]
  have hsync2 : transcribe_validate (.fromUrl fname cl bodySize)
      = .rejected 400 "File too large. Maximum size: 500MB" := by
    cases cl with
    | none =>
      simp [transcribe_validate, download_file_from_url, hbody, hmsg]
    | some d =>
      by_cases hd : d > MAX_CONTENT_LENGTH
      · simp [transcribe_validate, download_file_from_url, hbody, hmsg, hd]
      · simp [transcribe_validate, download_file_from_url, hbody, hmsg, hd]
  exact ⟨by rw [hup], by rw [hup], by rw [hup], by rw [hurl], by rw [hurl],
    by rw [hurl], hsync1, hsync2⟩

/-- Witness for the amended C2 at one byte over the cap. -/
theorem c2_amended_oversize_rejection_witness :
    (transcribe_async_served emptyGatewayW "j9"
        (.upload "big.wav" (MAX_CONTENT_LENGTH + 1)) "base.en" none
        "t0").code = 413
    ∧ (transcribe_async_served emptyGatewayW "j9"
        (.fromUrl "big.wav" none (MAX_CONTENT_LENGTH + 1)) "base.en" none
        "t0").code = 400
    ∧ transcribe_validate (.upload "big.wav" (MAX_CONTENT_LENGTH + 1))
        = .rejected 413 "File too large. Maximum size: 500MB"
    ∧ transcribe_validate (.fromUrl "big.wav" none (MAX_CONTENT_LENGTH + 1))
        = .rejected 400 "File too large. Maximum size: 500MB" := by
  have h := c2_amended_oversize_rejection emptyGatewayW "j9" "big.wav"
    "base.en" "t0" none (MAX_CONTENT_LENGTH + 1) (by decide) none
    (MAX_CONTENT_LENGTH + 1) (by decide) (by decide)
  exact ⟨h.1, h.2.2.2.1, h.2.2.2.2.2.2.1, h.2.2.2.2.2.2.2⟩

/-! ## C4 — sidecar shapes -/

def shape2SidecarW : SidecarData :=
  ⟨none, some "hello world", some [⟨some "hello world", [("t0", "0")]⟩]⟩

/-- Counterexample to C4: on a sidecar of the transcription/segments
shape the worker extracts nothing — empty text and no segments — while
the claim expects the transcription string and the segments list; the
synchronous path is the one that honours that shape. -/
theorem c4_counterexample :
    workerExtract shape2SidecarW = ("", [])
    ∧ workerExtract shape2SidecarW
        ≠ ("hello world", [⟨some "hello world", [("t0", "0")]⟩])
    ∧ syncExtract shape2SidecarW
        = ("hello world", [⟨some "hello world", [("t0", "0")]⟩]) := by
  refine ⟨rfl, by decide, rfl⟩

/-- C4 amended: the worker extracts text and segments only from the
result shape of the sidecar; on the transcription/segments shape it
returns empty text and no segments (that shape is honoured by the
synchronous path); and for any parsed sidecar the worker deletes the
sidecar file after reading it. -/
theorem c4_amended_sidecar_shapes (data : SidecarData) (t : String)
    (sg segs : List Segment) (job_id model audio serr sout : String)
    (language : Option String) :
    (data.result = some segs → segs ≠ [] →
        workerExtract data = (workerJoin segs, segs))
    ∧ (data.result = none → workerExtract data = ("", []))
    ∧ (data.result = none → data.transcription = some t →
        data.segments = some sg → syncExtract data = (t, sg))
    ∧ (transcribe_audio_task job_id model language audio
        ⟨true, .completed 0 serr sout, some (.parsed data)⟩).fs.sidecarPresent
        = false := by
  refine ⟨?_, ?_, ?_, ?_⟩
  · intro hr hne
    cases segs with
    | nil => exact absurd rfl hne
    | cons a l => simp [workerExtract, hr]
  · intro hr
    simp [workerExtract, hr]
  · intro hr ht hsg
    simp [syncExtract, hr, ht, hsg]
  · simp [transcribe_audio_task, workerTryBody]

def shape1SidecarW : SidecarData := ⟨some [⟨some " Hi ", []⟩], none, none⟩

/-- Witness for the amended C4 at concrete sidecars of both shapes. -/
theorem c4_amended_sidecar_shapes_witness :
    workerExtract shape1SidecarW
        = (workerJoin [⟨some " Hi ", []⟩], [⟨some " Hi ", []⟩])
    ∧ workerExtract shape2SidecarW = ("", [])
    ∧ syncExtract shape2SidecarW
        = ("hello world", [⟨some "hello world", [("t0", "0")]⟩])
    ∧ (transcribe_audio_task "j4" "base.en" none "/a.wav"
        ⟨true, .completed 0 "" "", some (.parsed shape1SidecarW)⟩).fs.sidecarPresent
        = false := by
  refine ⟨?_, ?_, ?_, ?_⟩
  · exact (c4_amended_sidecar_shapes shape1SidecarW "" []
      [⟨some " Hi ", []⟩] "j4" "base.en" "/a.wav" "" "" none).1 rfl (by decide)
  · exact (c4_amended_sidecar_shapes shape2SidecarW "hello world"
      [⟨some "hello world", [("t0", "0")]⟩] [] "j4" "base.en" "/a.wav" "" ""
      none).2.1 rfl
  · exact (c4_amended_sidecar_shapes shape2SidecarW "hello world"
      [⟨some "hello world", [("t0", "0")]⟩] [] "j4" "base.en" "/a.wav" "" ""
      none).2.2.1 rfl rfl rfl
  · exact (c4_amended_sidecar_shapes shape1SidecarW "" []
      [⟨some " Hi ", []⟩] "j4" "base.en" "/a.wav" "" "" none).2.2.2

/-! ## C5 — segment concatenation -/

def emptyMidSegsW : List Segment :=
  [⟨some " Hello ", []⟩, ⟨some "", []⟩, ⟨some "world", []⟩]

/-- Counterexample to C5: with an empty segment text in the middle the
worker inserts an empty element into the space-join, doubling the
separator, so its text differs from the spec concatenation that skips
empty texts; the synchronous path computes the spec concatenation. -/
theorem c5_counterexample :
    workerJoin emptyMidSegsW = "Hello  world"
    ∧ specJoinSegments emptyMidSegsW = "Hello world"
    ∧ workerJoin emptyMidSegsW ≠ specJoinSegments emptyMidSegsW
    ∧ syncJoin emptyMidSegsW = specJoinSegments emptyMidSegsW := by
  decide

/-- C5 amended: on a successful run whose sidecar result list is segs,
the worker returns exactly the stripped segment texts joined with
single spaces — without skipping empty texts, so an empty text yields
a doubled separator — and carries the raw segments through unchanged;
whenever no segment text is empty this join coincides with the spec
concatenation. -/
theorem c5_amended_worker_join (segs : List Segment)
    (job_id model audio serr sout : String) (language : Option String)
    (hne : segs ≠ []) :
    (transcribe_audio_task job_id model language audio
        ⟨true, .completed 0 serr sout,
         some (.parsed ⟨some segs, none, none⟩)⟩).outcome
      = .ok ⟨"success", job_id, workerJoin segs, segs, model,
             language.getD "auto", segs.length⟩
    ∧ workerJoin segs = String.intercalate " " (segs.map segStripText)
    ∧ ((∀ s ∈ segs, segTextTruthy s = true) →
        workerJoin segs = specJoinSegments segs) := by
  refine ⟨?_, rfl, ?_⟩
  · cases segs with
    | nil => exact absurd rfl hne
    | cons a l =>
      simp [transcribe_audio_task, workerTryBody, workerExtract]
  · intro hall
    unfold workerJoin specJoinSegments
    rw [List.filter_eq_self.mpr hall]

def truthySegsW : List Segment := [⟨some "Hello", []⟩, ⟨some "world", []⟩]

/-- Witness for the amended C5 at a concrete nonempty segment list
with no empty texts. -/
theorem c5_amended_worker_join_witness :
    (transcribe_audio_task "j5" "base.en" none "/a.wav"
        ⟨true, .completed 0 "" "",
         some (.parsed ⟨some truthySegsW, none, none⟩)⟩).outcome
      = .ok ⟨"success", "j5", workerJoin truthySegsW, truthySegsW, "base.en",
             "auto", truthySegsW.length⟩
    ∧ workerJoin truthySegsW = specJoinSegments truthySegsW := by
  have h := c5_amended_worker_join truthySegsW "j5" "base.en" "/a.wav" "" ""
    none (by decide)
  exact ⟨h.1, h.2.2 (by decide)⟩

end Whisper
